import Mathlib

/-!
Verification of the AuthWave backend core: a shallow embedding of the
project/admin/user lifecycle controllers (project cascade deletion, bulk
deletion, admin token refresh and logout, admin-console user operations,
security-log query controllers, and project config resets) together with
theorems settling the specification claims about them.

The persistence layer is modelled as an in-memory document store: each
collection is a list of records, `findById`/`findOne` are `List.find?`,
`deleteMany`/`findByIdAndDelete` are `List.filter`, and an in-place `save`
of a looked-up document is a `List.map` that rewrites the record(s) with
the matching id. Dates are naturals (milliseconds since the epoch); a JS
`null`/`undefined` field is `Option.none`; a JS falsy-string check
(`!someString`) is a comparison with the empty string.
-/

namespace AuthWave

/-- The error kinds raised by the controllers (the `responseType` constants
used in throw sites of the source). `derefNull` models the runtime
`TypeError` produced by dereferencing an absent document through the
non-null assertion `projectFromDB!` — it is deliberately distinct from the
structured `notFound` ApiError. -/
inductive ErrKind where
  | invalidFormat
  | notFound
  | alreadyExists
  | validationError
  | incorrectPassword
  | refreshTokenInvalid
  | refreshTokenExpired
  | tokenExpired
  | derefNull
deriving DecidableEq, Repr

/-- Admin document: token fields are nullable (`findByIdAndUpdate` with
`null` clears them). -/
structure AdminRec where
  id : String
  name : String
  email : String
  password : String
  accessToken : Option String
  accessTokenExpiry : Option Nat
  refreshToken : Option String
  refreshTokenExpiry : Option Nat
deriving DecidableEq, Repr

/-- Security section of a project config (`userLimit`, `userSessionLimit`). -/
structure SecurityConfig where
  userLimit : Nat
  userSessionLimit : Nat
deriving DecidableEq, Repr

/-- Project config: enabled login methods, security limits, and the
email-template override mapping (template name to override content). -/
structure ProjectConfig where
  loginMethods : List String
  security : SecurityConfig
  emailTemplates : List (String × String)
deriving DecidableEq, Repr

/-- Project document. -/
structure ProjectRec where
  id : String
  projectName : String
  owner : String
  appName : String
  appEmail : String
  projectKey : String
  config : ProjectConfig
deriving DecidableEq, Repr

/-- End-user document, scoped to a project through `projectId`. -/
structure UserRec where
  id : String
  projectId : String
  email : String
  isVerified : Bool
deriving DecidableEq, Repr

/-- Session document (weak references to user and project by id). -/
structure SessionRec where
  id : String
  userId : String
  projectId : String
deriving DecidableEq, Repr

/-- Security-log document. `userId` is nullable (project-level events). -/
structure LogRec where
  id : String
  projectId : String
  userId : Option String
  eventCode : String
  timestamp : Nat
deriving DecidableEq, Repr

/-- The document store: one collection per model. -/
structure Store where
  admins : List AdminRec
  projects : List ProjectRec
  users : List UserRec
  sessions : List SessionRec
  logs : List LogRec
deriving DecidableEq, Repr

def emptyStr : String := ""

/-! ## Cascade deletion of a project (part_000, `deleteProject`)

The source performs, in this order:
1. `Project.findByIdAndDelete(projectId)`
2. `User.deleteMany({ projectId })`
3. `Session.deleteMany({ projectId })`
4. `Log.deleteMany({ projectId })`
None of the four steps errors when nothing matches. -/

/-- Step 1 of the cascade: `Project.findByIdAndDelete(projectId)` (a no-op
when the project is already absent). -/
def deleteProjectStep (p : String) (s : Store) : Store :=
  { s with projects := s.projects.filter (fun pr => !(pr.id == p)) }

/-- Step 2 of the cascade: `User.deleteMany({ projectId })`. -/
def deleteUsersStep (p : String) (s : Store) : Store :=
  { s with users := s.users.filter (fun u => !(u.projectId == p)) }

/-- Step 3 of the cascade: `Session.deleteMany({ projectId })`. -/
def deleteSessionsStep (p : String) (s : Store) : Store :=
  { s with sessions := s.sessions.filter (fun ss => !(ss.projectId == p)) }

/-- Step 4 of the cascade: `Log.deleteMany({ projectId })`. -/
def deleteLogsStep (p : String) (s : Store) : Store :=
  { s with logs := s.logs.filter (fun lg => !(lg.projectId == p)) }

/-- The four steps composed in the source's order: project first, then
users, sessions, logs. -/
def cascadeOne (p : String) (s : Store) : Store :=
  deleteLogsStep p (deleteSessionsStep p (deleteUsersStep p (deleteProjectStep p s)))

/-- `deleteProject` controller: rejects a falsy (empty) project id with
`INVALID_FORMAT`, otherwise runs the four-step cascade; no step can fail. -/
def deleteProject (p : String) (s : Store) : Except ErrKind Store :=
  if p == emptyStr then Except.error ErrKind.invalidFormat
  else Except.ok (cascadeOne p s)

/-! ## Helper lemmas about filters. -/

theorem cascadeOne_projects (p : String) (s : Store) :
    (cascadeOne p s).projects = s.projects.filter (fun pr => !(pr.id == p)) := rfl

theorem cascadeOne_users (p : String) (s : Store) :
    (cascadeOne p s).users = s.users.filter (fun u => !(u.projectId == p)) := rfl

theorem cascadeOne_sessions (p : String) (s : Store) :
    (cascadeOne p s).sessions = s.sessions.filter (fun ss => !(ss.projectId == p)) := rfl

theorem cascadeOne_logs (p : String) (s : Store) :
    (cascadeOne p s).logs = s.logs.filter (fun lg => !(lg.projectId == p)) := rfl

theorem filter_not_then_match_nil {α : Type} (f : α → Bool) (l : List α) :
    (l.filter (fun a => !(f a))).filter (fun a => f a) = [] := by
  rw [List.filter_filter]
  apply List.filter_eq_nil_iff.mpr
  intro a _
  cases h : f a <;> simp [h]

theorem find_match_in_filter_not {α : Type} (f : α → Bool) (l : List α) :
    (l.filter (fun a => !(f a))).find? (fun a => f a) = none := by
  apply List.find?_eq_none.mpr
  intro a ha
  have := List.of_mem_filter ha
  simp at this
  simp [this]

theorem filter_not_idem {α : Type} (f : α → Bool) (l : List α) :
    (l.filter (fun a => !(f a))).filter (fun a => !(f a)) =
      l.filter (fun a => !(f a)) := by
  rw [List.filter_filter]
  apply List.filter_congr
  intro a _
  cases h : f a <;> simp [h]

/-- C1. After `deleteProject p` succeeds, the project `p` and every user,
session and log with `projectId = p` are absent from the store; running
`deleteProject p` again on the resulting store succeeds as well (and the
emptied collections stay empty). -/
theorem deleteProject_complete_idempotent (p : String) (s : Store)
    (h : ¬ p = emptyStr) :
    ∃ s1 : Store, deleteProject p s = Except.ok s1
      ∧ s1.projects.find? (fun pr => pr.id == p) = none
      ∧ s1.users.filter (fun u => u.projectId == p) = []
      ∧ s1.sessions.filter (fun ss => ss.projectId == p) = []
      ∧ s1.logs.filter (fun lg => lg.projectId == p) = []
      ∧ deleteProject p s1 = Except.ok (cascadeOne p s1)
      ∧ (cascadeOne p s1).projects.find? (fun pr => pr.id == p) = none
      ∧ (cascadeOne p s1).users.filter (fun u => u.projectId == p) = [] := by
  refine ⟨cascadeOne p s, ?_, ?_, ?_, ?_, ?_, ?_, ?_, ?_⟩
  · simp [deleteProject, emptyStr] at *
    simp [h]
  · exact find_match_in_filter_not (fun pr => pr.id == p) s.projects
  · exact filter_not_then_match_nil (fun u => u.projectId == p) s.users
  · exact filter_not_then_match_nil (fun ss => ss.projectId == p) s.sessions
  · exact filter_not_then_match_nil (fun lg => lg.projectId == p) s.logs
  · simp [deleteProject, emptyStr] at *
    simp [h]
  · rw [cascadeOne_projects]
    exact find_match_in_filter_not (fun pr : ProjectRec => pr.id == p) _
  · rw [cascadeOne_users]
    exact filter_not_then_match_nil (fun u : UserRec => u.projectId == p) _

def pOne : String := "p1"

def adminOne : String := "a1"

def userOne : UserRec :=
  { id := "u1", projectId := pOne, email := "u1@x.io", isVerified := false }

def projOne : ProjectRec :=
  { id := pOne, projectName := "alpha", owner := adminOne,
    appName := "app", appEmail := "app@x.io", projectKey := "k1",
    config := { loginMethods := [], security := { userLimit := 1000, userSessionLimit := 5 },
                emailTemplates := [] } }

def storeOne : Store :=
  { admins := [], projects := [projOne], users := [userOne], sessions := [], logs := [] }

/-! ## Deletion order within the cascade (claim C2)

The source's `deleteProject` deletes the Project document FIRST
(`Project.findByIdAndDelete` on line 515), then Users, Sessions, Logs.
Stopping the sequence right after the first delete therefore leaves
users whose `projectId` refers to an already-deleted project. -/

/-- Claim C2 counterexample: at a store with one project and one of its
users, the intermediate state reached by stopping the cascade after its
first delete has the Project record gone while the dependent User record
is still present — so the Project is not deleted last among the four, and
an intermediate state does contain a User whose projectId refers to an
already-deleted Project. -/
theorem deleteProject_order_counterexample :
    (deleteProjectStep pOne storeOne).projects.find? (fun pr => pr.id == pOne) = none
    ∧ userOne ∈ (deleteProjectStep pOne storeOne).users
    ∧ userOne.projectId = pOne := by
  decide

/-- Claim C2 (amended): within a single `deleteProject p` cascade the
Project record is deleted FIRST among the four collections, and the
dependent Users, Sessions and Logs are deleted afterwards (in that
order); after the first step the project is already absent while the
three dependent collections are untouched. -/
theorem deleteProject_order_amended (p : String) (s : Store)
    (h : ¬ p = emptyStr) :
    deleteProject p s =
      Except.ok (deleteLogsStep p (deleteSessionsStep p (deleteUsersStep p (deleteProjectStep p s))))
    ∧ (deleteProjectStep p s).projects.find? (fun pr => pr.id == p) = none
    ∧ (deleteProjectStep p s).users = s.users
    ∧ (deleteProjectStep p s).sessions = s.sessions
    ∧ (deleteProjectStep p s).logs = s.logs := by
  refine ⟨?_, ?_, rfl, rfl, rfl⟩
  · simp [deleteProject, emptyStr] at *
    simp [h, cascadeOne]
  · exact find_match_in_filter_not (fun pr : ProjectRec => pr.id == p) s.projects

/-- Witness for the amended claim C2 at a concrete store. -/
theorem deleteProject_order_amended_witness :
    deleteProject pOne storeOne =
      Except.ok (deleteLogsStep pOne (deleteSessionsStep pOne (deleteUsersStep pOne (deleteProjectStep pOne storeOne))))
    ∧ (deleteProjectStep pOne storeOne).projects.find? (fun pr => pr.id == pOne) = none
    ∧ (deleteProjectStep pOne storeOne).users = storeOne.users
    ∧ (deleteProjectStep pOne storeOne).sessions = storeOne.sessions
    ∧ (deleteProjectStep pOne storeOne).logs = storeOne.logs :=
  deleteProject_order_amended pOne storeOne (by decide)

/-- Witness for C1 at a concrete store. -/
theorem deleteProject_complete_idempotent_witness :
    ∃ s1 : Store, deleteProject pOne storeOne = Except.ok s1
      ∧ s1.projects.find? (fun pr => pr.id == pOne) = none
      ∧ s1.users.filter (fun u => u.projectId == pOne) = []
      ∧ s1.sessions.filter (fun ss => ss.projectId == pOne) = []
      ∧ s1.logs.filter (fun lg => lg.projectId == pOne) = []
      ∧ deleteProject pOne s1 = Except.ok (cascadeOne pOne s1)
      ∧ (cascadeOne pOne s1).projects.find? (fun pr => pr.id == pOne) = none
      ∧ (cascadeOne pOne s1).users.filter (fun u => u.projectId == pOne) = [] :=
  deleteProject_complete_idempotent pOne storeOne (by decide)

/-! ## Bulk deletion of all owned projects (part_000, `deleteAllProjects`, claim C3)

The source enumerates the owned project ids with an aggregation, then runs
`allProjectIDs.forEach(async (item) => { ...cascade... })`: the async
callbacks are launched and never awaited, and any rejection is discarded.
The HTTP reply is constructed unconditionally right after the loop. -/

inductive ReplyKind where
  | created
  | successful
  | deleted
deriving DecidableEq, Repr

/-- An HTTP reply as the controllers build it: a response kind, a message,
and the list of reported per-item failures (the source's reply payload for
bulk deletion is the empty object — it carries no failure list). -/
structure ApiReply where
  kind : ReplyKind
  message : String
  failures : List String
deriving DecidableEq, Repr

def allProjectsDeletedMsg : String := "All projects deleted successfully"

/-- The owner-scoped id projection (`Project.aggregate` with a `$match` on
`owner` and a `$project` keeping only `_id`). -/
def ownedProjectIds (adminId : String) (s : Store) : List String :=
  (s.projects.filter (fun pr => pr.owner == adminId)).map (fun pr => pr.id)

/-- `deleteAllProjects` controller. The store effect of the launched
cascades is modelled by a fold in which the oracle `fails` marks the
cascades that fail (their deletions are lost); the reply is built
unconditionally — exactly as in the source, where the `forEach(async ...)`
iteration is not awaited and no per-item outcome is aggregated, so the
reply never depends on the cascades at all. -/
def deleteAllProjects (adminId : String) (fails : String → Bool) (s : Store) :
    Store × ApiReply :=
  let ids := ownedProjectIds adminId s
  let s1 := ids.foldl (fun acc pid => if fails pid then acc else cascadeOne pid acc) s
  (s1, { kind := ReplyKind.deleted, message := allProjectsDeletedMsg, failures := [] })

/-- Claim C3 (code bug, as the spec itself notes in its design notes): the
reply of `deleteAllProjects` is identical whatever cascades fail — per-item
failures are never collected or reported; concretely, when the cascade of
the admin's only project fails, its user records survive in the store, yet
the reply is the unqualified success reply with an empty failure list. -/
theorem deleteAllProjects_discards_failures :
    (∀ (a : String) (s : Store) (fails : String → Bool),
        (deleteAllProjects a fails s).2 = (deleteAllProjects a (fun _ => false) s).2)
    ∧ (deleteAllProjects adminOne (fun pid => pid == pOne) storeOne).1.users = [userOne]
    ∧ (deleteAllProjects adminOne (fun pid => pid == pOne) storeOne).1.projects = [projOne]
    ∧ (deleteAllProjects adminOne (fun pid => pid == pOne) storeOne).2 =
        { kind := ReplyKind.deleted, message := allProjectsDeletedMsg, failures := [] } := by
  refine ⟨fun a s fails => rfl, ?_, ?_, ?_⟩ <;> decide

/-! ## Admin-console user operations (part_001, claims C4)

`getUserFromConsole` looks the user up with `User.findById(userId)` and
`verifyUserFromConsole` with `User.findOne({_id?, email?})`: neither query
constrains `projectId`, although both routes run behind the
project-validation middleware that establishes `req.project.id`. -/

/-- `getUserFromConsole`: the validated project id is in scope but unused
by the lookup — the source queries by `userId` alone. -/
def getUserFromConsole (projectId userId : String) (s : Store) :
    Except ErrKind UserRec :=
  if userId == emptyStr then Except.error ErrKind.notFound
  else
    match s.users.find? (fun u => u.id == userId) with
    | none => Except.error ErrKind.notFound
    | some u => Except.ok u

/-- `verifyUserFromConsole`: requires at least one of `userId`/`email`
(JS-falsy check modelled as comparison with the empty string), finds the
user by the provided identifiers only — no `projectId` constraint — and
saves it with `isVerified := true`. -/
def verifyUserFromConsole (projectId userId email : String) (s : Store) :
    Except ErrKind Store :=
  if userId == emptyStr && email == emptyStr then Except.error ErrKind.notFound
  else
    match s.users.find? (fun u =>
        (userId == emptyStr || u.id == userId)
        && (email == emptyStr || u.email == email)) with
    | none => Except.error ErrKind.notFound
    | some u =>
      Except.ok { s with users := s.users.map (fun w =>
        if w.id == u.id then { w with isVerified := true } else w) }

def pTwo : String := "p2"

def uTwoId : String := "u2"

def userTwo : UserRec :=
  { id := uTwoId, projectId := pTwo, email := "u2@x.io", isVerified := false }

def projTwo : ProjectRec :=
  { projOne with id := pTwo, projectName := "beta" }

/-- A store with two projects of the same owner; the only user belongs to
the second project. -/
def storeTwo : Store :=
  { admins := [], projects := [projOne, projTwo], users := [userTwo],
    sessions := [], logs := [] }

/-- Claim C4 (code bug): with the request's validated project being `p1`
(which exists in the store), `getUserFromConsole` returns the user record
of project `p2`, and `verifyUserFromConsole` mutates that same
other-project user to verified — the console operations are not
tenant-scoped. -/
theorem console_cross_tenant_access :
    storeTwo.projects.find? (fun pr => pr.id == pOne) = some projOne
    ∧ getUserFromConsole pOne uTwoId storeTwo = Except.ok userTwo
    ∧ ¬ userTwo.projectId = pOne
    ∧ verifyUserFromConsole pOne uTwoId emptyStr storeTwo =
        Except.ok { storeTwo with users := [{ userTwo with isVerified := true }] } := by
  refine ⟨by decide, by rfl, by decide, by rfl⟩

/-! ## Admin access-token refresh (part_001, `refreshAccessToken`, claim C5)

The external JWT library is abstracted: `decode` stands for
`jwt.decode` (extracting the `adminId` claim without verification; `none`
covers both a malformed token and a payload without `adminId`) and `mint`
for `generateToken(payload, secret, expiry)` applied to
`{adminId, email}`. The JS comparison `adminFromDB.refreshTokenExpiry <
new Date()` coerces a `null` stored expiry to 0, modelled by
`Option.getD 0`. -/

/-- The access-token lifetime persisted on refresh and login:
`24 * 60 * 60 * 1000` milliseconds. -/
def accessTtlMs : Nat := 24 * 60 * 60 * 1000

/-- `refreshAccessToken` controller: no presented token, or no decodable
adminId, fails `REFRESH_TOKEN_INVALID`; missing admin record fails
`NOT_FOUND`; stored refresh expiry in the past fails
`REFRESH_TOKEN_EXPIRED`; otherwise a fresh access token and its expiry
are persisted on the admin document (the refresh token fields are not
written). -/
def refreshAccessToken (decode : String → Option String)
    (mint : String → String → String) (now : Nat)
    (refreshToken : Option String) (s : Store) :
    Except ErrKind (Store × String) :=
  match refreshToken with
  | none => Except.error ErrKind.refreshTokenInvalid
  | some tok =>
    match decode tok with
    | none => Except.error ErrKind.refreshTokenInvalid
    | some adminId =>
      if adminId == emptyStr then Except.error ErrKind.refreshTokenInvalid
      else
        match s.admins.find? (fun a => a.id == adminId) with
        | none => Except.error ErrKind.notFound
        | some adm =>
          if adm.refreshTokenExpiry.getD 0 < now then
            Except.error ErrKind.refreshTokenExpired
          else
            Except.ok
              ({ s with admins := s.admins.map (fun a =>
                  if a.id == adminId then
                    { a with accessToken := some (mint adminId adm.email),
                             accessTokenExpiry := some (now + accessTtlMs) }
                  else a) },
                mint adminId adm.email)

theorem list_map_id_on {α : Type} (g : α → α) :
    ∀ l : List α, (∀ a ∈ l, g a = a) → l.map g = l
  | [], _ => rfl
  | x :: xs, h => by
    have hx := h x (List.mem_cons_self x xs)
    have hxs := list_map_id_on g xs (fun a ha => h a (List.mem_cons_of_mem x ha))
    simp [List.map_cons, hx, hxs]

/-- Claim C5: the four failure cases of `refreshAccessToken` produce the
claimed error kinds, and the success case persists exactly a new access
token and access-token expiry while the stored refresh token and
refresh-token expiry of every admin record are unchanged. -/
theorem refreshAccessToken_contract (decode : String → Option String)
    (mint : String → String → String) (now : Nat) (s : Store)
    (tokB tokC tokD tokE aidC aidD aidE : String) (admD admE : AdminRec)
    (hB : decode tokB = none)
    (hC : decode tokC = some aidC) (hCne : ¬ aidC = emptyStr)
    (hCno : s.admins.find? (fun a => a.id == aidC) = none)
    (hD : decode tokD = some aidD) (hDne : ¬ aidD = emptyStr)
    (hDfind : s.admins.find? (fun a => a.id == aidD) = some admD)
    (hDexp : admD.refreshTokenExpiry.getD 0 < now)
    (hE : decode tokE = some aidE) (hEne : ¬ aidE = emptyStr)
    (hEfind : s.admins.find? (fun a => a.id == aidE) = some admE)
    (hEok : ¬ admE.refreshTokenExpiry.getD 0 < now) :
    refreshAccessToken decode mint now none s = Except.error ErrKind.refreshTokenInvalid
    ∧ refreshAccessToken decode mint now (some tokB) s = Except.error ErrKind.refreshTokenInvalid
    ∧ refreshAccessToken decode mint now (some tokC) s = Except.error ErrKind.notFound
    ∧ refreshAccessToken decode mint now (some tokD) s = Except.error ErrKind.refreshTokenExpired
    ∧ refreshAccessToken decode mint now (some tokE) s =
        Except.ok
          ({ s with admins := s.admins.map (fun a =>
              if a.id == aidE then
                { a with accessToken := some (mint aidE admE.email),
                         accessTokenExpiry := some (now + accessTtlMs) }
              else a) },
            mint aidE admE.email)
    ∧ (s.admins.map (fun a =>
          if a.id == aidE then
            { a with accessToken := some (mint aidE admE.email),
                     accessTokenExpiry := some (now + accessTtlMs) }
          else a)).map (fun a => (a.id, a.refreshToken, a.refreshTokenExpiry))
        = s.admins.map (fun a => (a.id, a.refreshToken, a.refreshTokenExpiry)) := by
  refine ⟨rfl, ?_, ?_, ?_, ?_, ?_⟩
  · simp [refreshAccessToken, hB]
  · simp [refreshAccessToken, hC, hCno, hCne]
  · simp [refreshAccessToken, hD, hDne, hDfind, hDexp]
  · simp [refreshAccessToken, hE, hEne, hEfind, hEok]
  · rw [List.map_map]
    apply List.map_congr_left
    intro a _
    by_cases ha : a.id = aidE <;> simp [ha]

def tokBW : String := "bad-token"

def tokDW : String := "expired-admin-token"

def tokEW : String := "live-admin-token"

def tokCW : String := "ghost-admin-token"

def aidCW : String := "ghost"

def aidDW : String := "ad"

def aidEW : String := "ae"

def decodeW : String → Option String := fun t =>
  if t == tokBW then none
  else if t == tokCW then some aidCW
  else if t == tokDW then some aidDW
  else if t == tokEW then some aidEW
  else none

def mintW : String → String → String := fun a e => a ++ e

def rdTok : String := "rd"

def reTok : String := "re"

def oldAccessTok : String := "oldat"

def admDW : AdminRec :=
  { id := aidDW, name := "D", email := "d@x.io", password := "h",
    accessToken := none, accessTokenExpiry := none,
    refreshToken := some rdTok, refreshTokenExpiry := some 5 }

def admEW : AdminRec :=
  { id := aidEW, name := "E", email := "e@x.io", password := "h",
    accessToken := some oldAccessTok, accessTokenExpiry := some 40,
    refreshToken := some reTok, refreshTokenExpiry := some 50 }

def storeAdm : Store :=
  { admins := [admDW, admEW], projects := [], users := [], sessions := [], logs := [] }

def nowW : Nat := 10

/-- Witness for C5: the refresh contract applied at a concrete decode
function, mint function, clock and two-admin store (one with an expired
stored refresh expiry, one live). -/
theorem refreshAccessToken_contract_witness :
    refreshAccessToken decodeW mintW nowW none storeAdm = Except.error ErrKind.refreshTokenInvalid
    ∧ refreshAccessToken decodeW mintW nowW (some tokBW) storeAdm = Except.error ErrKind.refreshTokenInvalid
    ∧ refreshAccessToken decodeW mintW nowW (some tokCW) storeAdm = Except.error ErrKind.notFound
    ∧ refreshAccessToken decodeW mintW nowW (some tokDW) storeAdm = Except.error ErrKind.refreshTokenExpired
    ∧ refreshAccessToken decodeW mintW nowW (some tokEW) storeAdm =
        Except.ok
          ({ storeAdm with admins := storeAdm.admins.map (fun a =>
              if a.id == aidEW then
                { a with accessToken := some (mintW aidEW admEW.email),
                         accessTokenExpiry := some (nowW + accessTtlMs) }
              else a) },
            mintW aidEW admEW.email)
    ∧ (storeAdm.admins.map (fun a =>
          if a.id == aidEW then
            { a with accessToken := some (mintW aidEW admEW.email),
                     accessTokenExpiry := some (nowW + accessTtlMs) }
          else a)).map (fun a => (a.id, a.refreshToken, a.refreshTokenExpiry))
        = storeAdm.admins.map (fun a => (a.id, a.refreshToken, a.refreshTokenExpiry)) :=
  refreshAccessToken_contract decodeW mintW nowW storeAdm
    tokBW tokCW tokDW tokEW aidCW aidDW aidEW admDW admEW
    (by decide) (by decide) (by decide) (by decide) (by decide) (by decide)
    (by decide) (by decide) (by decide) (by decide) (by decide) (by decide)

/-! ## Admin logout (part_001, `deleteLoginSession`, claim C6)

`Admin.findByIdAndUpdate(adminId, {refreshToken: null, refreshTokenExpiry:
null, accessToken: null, accessTokenExpiry: null})` — a no-op when the
admin is absent, never an error. -/

/-- `deleteLoginSession` controller: nulls the four token fields of the
admin document. -/
def deleteLoginSession (adminId : String) (s : Store) : Store :=
  { s with admins := s.admins.map (fun a =>
      if a.id == adminId then
        { a with accessToken := none, accessTokenExpiry := none,
                 refreshToken := none, refreshTokenExpiry := none }
      else a) }

/-- Modelled from the spec: the admin-auth verification middleware is not
among the source files; per sections 4.1 and 4.3 of the spec, verification
of a presented access token is decided against the stored `accessToken`
and the stored `accessTokenExpiry` of the admin record (stored expiry is
the source of truth, not the token's self-encoded expiry). -/
def verifyStoredAccess (adminId token : String) (now : Nat) (s : Store) : Bool :=
  match s.admins.find? (fun a => a.id == adminId) with
  | none => false
  | some a => (a.accessToken == some token) && (now < a.accessTokenExpiry.getD 0)

/-- Claim C6: after `deleteLoginSession adminId`, every admin record with
that id has all four token fields null, and verification against the
stored fields fails for every presented token and every current time —
including a previously valid access token whose self-encoded expiry has
not passed. -/
theorem deleteLoginSession_revokes (adminId : String) (s : Store) :
    (∀ a ∈ (deleteLoginSession adminId s).admins, a.id = adminId →
        a.accessToken = none ∧ a.accessTokenExpiry = none
        ∧ a.refreshToken = none ∧ a.refreshTokenExpiry = none)
    ∧ (∀ (token : String) (now : Nat),
        verifyStoredAccess adminId token now (deleteLoginSession adminId s) = false) := by
  have hfields : ∀ a ∈ (deleteLoginSession adminId s).admins, a.id = adminId →
      a.accessToken = none ∧ a.accessTokenExpiry = none
      ∧ a.refreshToken = none ∧ a.refreshTokenExpiry = none := by
    intro a ha hid
    rcases List.mem_map.mp ha with ⟨b, _, hb⟩
    by_cases hbid : b.id = adminId
    · simp [hbid] at hb
      subst hb
      exact ⟨rfl, rfl, rfl, rfl⟩
    · simp [hbid] at hb
      subst hb
      exact absurd hid hbid
  refine ⟨hfields, ?_⟩
  intro token now
  unfold verifyStoredAccess
  cases hfind : (deleteLoginSession adminId s).admins.find? (fun a => a.id == adminId) with
  | none => rfl
  | some a =>
    have hmem := List.mem_of_find?_eq_some hfind
    have hpred := List.find?_some hfind
    simp at hpred
    have := hfields a hmem hpred
    simp [this.1]

/-- Witness for C6: after logging out the live admin of the concrete
store, its previously valid access token fails stored-field verification
at a time well before the token's old stored expiry. -/
theorem deleteLoginSession_revokes_witness :
    verifyStoredAccess aidEW oldAccessTok 10 (deleteLoginSession aidEW storeAdm) = false :=
  (deleteLoginSession_revokes aidEW storeAdm).2 oldAccessTok 10

/-! ## Project creation (part_000, `createProject`, claim C7)

The external validators (`ZProjectName`, `ZAppName`, `ZEmail` and
`validateProjectConfig`, declared outside the source files) are
abstracted as boolean-valued parameters; `newId` is the database-assigned
document id and `finalKey` stands for the `jwt.sign({projectId, owner})`
project key minted after creation (the source first stores a temporary
placeholder key, then saves the signed key onto the created document). -/

/-- The JS `String.prototype.trim`: strips leading and trailing
whitespace (structurally recursive so that concrete instances compute). -/
def trimStr (s : String) : String :=
  String.mk (((s.data.dropWhile Char.isWhitespace).reverse.dropWhile Char.isWhitespace).reverse)

/-- The project document assembled by `Project.create` (with `key` being
the placeholder key at creation time and the signed key after re-keying). -/
def createdRec (adminId projectName appName appEmail newId key : String)
    (cfg : ProjectConfig) : ProjectRec :=
  { id := newId, projectName := projectName, owner := adminId,
    appName := appName, appEmail := appEmail, projectKey := key, config := cfg }

/-- `createProject` controller. Faithful to the source's check order:
falsy trimmed fields (`NOT_FOUND`), missing config (`INVALID_FORMAT`),
the three schema validators and the config validator (`INVALID_FORMAT`),
then the `(projectName, owner)` uniqueness probe (`ALREADY_EXISTS`),
then creation with a temporary key followed by the key rewrite. -/
def createProject (vName vApp vEmail : String → Bool)
    (vConfig : ProjectConfig → Bool)
    (adminId projectName appName appEmail : String)
    (config : Option ProjectConfig) (newId tempKey finalKey : String)
    (s : Store) : Except ErrKind (Store × ProjectRec) :=
  if trimStr projectName == emptyStr || trimStr appName == emptyStr || trimStr appEmail == emptyStr then
    Except.error ErrKind.notFound
  else
    match config with
    | none => Except.error ErrKind.invalidFormat
    | some cfg =>
      if !(vName projectName) then Except.error ErrKind.invalidFormat
      else if !(vApp appName) then Except.error ErrKind.invalidFormat
      else if !(vEmail appEmail) then Except.error ErrKind.invalidFormat
      else if !(vConfig cfg) then Except.error ErrKind.invalidFormat
      else
        match s.projects.find? (fun pr => pr.projectName == projectName && pr.owner == adminId) with
        | some _ => Except.error ErrKind.alreadyExists
        | none =>
          let created := createdRec adminId projectName appName appEmail newId tempKey cfg
          let s1 : Store := { s with projects := s.projects ++ [created] }
          let s2 : Store := { s1 with projects := s1.projects.map (fun q =>
              if q.id == newId then { q with projectKey := finalKey } else q) }
          Except.ok (s2, { created with projectKey := finalKey })

/-- Re-keying the freshly appended document only touches that document
when no pre-existing document carries the fresh id. -/
theorem rekey_append (t : List ProjectRec) (newId finalKey : String)
    (c : ProjectRec) (hc : c.id = newId)
    (hfresh : ∀ pr ∈ t, ¬ pr.id = newId) :
    (t ++ [c]).map (fun q => if q.id == newId then { q with projectKey := finalKey } else q)
      = t ++ [{ c with projectKey := finalKey }] := by
  rw [List.map_append]
  congr 1
  · apply list_map_id_on
    intro a ha
    have hne : (a.id == newId) = false := by
      simpa using hfresh a ha
    simp [hne]
  · simp [hc]

/-- The uniqueness invariant of claim C7: no two stored projects share
both owner and project name. -/
def ownerNamePairsUnique (l : List ProjectRec) : Prop :=
  l.Pairwise (fun a b => ¬ (a.owner = b.owner ∧ a.projectName = b.projectName))

/-- Claim C7: with all the external validations passing, `createProject`
fails with `AlreadyExists` on a store holding a project with the same
`(owner, projectName)` pair; on a store with no such pair — in particular
one holding a project with the same name under a DIFFERENT owner — it
succeeds, appends the created record, and preserves the uniqueness of
`(owner, projectName)` pairs. -/
theorem createProject_owner_name_unique
    (vName vApp vEmail : String → Bool) (vConfig : ProjectConfig → Bool)
    (adminId projectName appName appEmail newId tempKey finalKey : String)
    (cfg : ProjectConfig) (s t : Store) (pr0 : ProjectRec)
    (hpn : ¬ trimStr projectName = emptyStr)
    (han : ¬ trimStr appName = emptyStr)
    (hae : ¬ trimStr appEmail = emptyStr)
    (hv1 : vName projectName = true) (hv2 : vApp appName = true)
    (hv3 : vEmail appEmail = true) (hv4 : vConfig cfg = true)
    (hdup : ∃ pr ∈ s.projects, pr.projectName = projectName ∧ pr.owner = adminId)
    (hnodup : ∀ pr ∈ t.projects, ¬ (pr.projectName = projectName ∧ pr.owner = adminId))
    (hfresh : ∀ pr ∈ t.projects, ¬ pr.id = newId)
    (huniq : ownerNamePairsUnique t.projects)
    (hpr0mem : pr0 ∈ t.projects) (hpr0name : pr0.projectName = projectName)
    (hpr0owner : ¬ pr0.owner = adminId) :
    createProject vName vApp vEmail vConfig adminId projectName appName appEmail
        (some cfg) newId tempKey finalKey s = Except.error ErrKind.alreadyExists
    ∧ ∃ created : ProjectRec,
        createProject vName vApp vEmail vConfig adminId projectName appName appEmail
            (some cfg) newId tempKey finalKey t
          = Except.ok ({ t with projects := t.projects ++ [created] }, created)
        ∧ created.owner = adminId ∧ created.projectName = projectName
        ∧ created.projectKey = finalKey
        ∧ ownerNamePairsUnique (t.projects ++ [created]) := by
  have hpnb : (trimStr projectName == emptyStr) = false := by
    simpa using hpn
  have hanb : (trimStr appName == emptyStr) = false := by
    simpa using han
  have haeb : (trimStr appEmail == emptyStr) = false := by
    simpa using hae
  constructor
  · obtain ⟨pr, hmem, hname, howner⟩ := hdup
    have hfound : ¬ s.projects.find?
        (fun pr => pr.projectName == projectName && pr.owner == adminId) = none := by
      intro hnone
      have := List.find?_eq_none.mp hnone pr hmem
      simp [hname, howner] at this
    cases hfind : s.projects.find?
        (fun pr => pr.projectName == projectName && pr.owner == adminId) with
    | none => exact absurd hfind hfound
    | some w =>
      simp [createProject, hpnb, hanb, haeb, hv1, hv2, hv3, hv4, hfind]
  · have hfind : t.projects.find?
        (fun pr => pr.projectName == projectName && pr.owner == adminId) = none := by
      apply List.find?_eq_none.mpr
      intro pr hmem
      have := hnodup pr hmem
      simp only [Bool.and_eq_true, beq_iff_eq]
      intro hcon
      exact this ⟨hcon.1, hcon.2⟩
    have hrekey := rekey_append t.projects newId finalKey
      (createdRec adminId projectName appName appEmail newId tempKey cfg) rfl hfresh
    refine ⟨{ createdRec adminId projectName appName appEmail newId tempKey cfg with
              projectKey := finalKey }, ?_, rfl, rfl, rfl, ?_⟩
    · simp only [createProject, hpnb, hanb, haeb, hv1, hv2, hv3, hv4, hfind,
        Bool.or_self, Bool.or_false, Bool.false_or, Bool.not_true, Bool.not_false,
        Bool.false_eq_true, if_false, if_true, ite_false, ite_true]
      rw [hrekey]
    · unfold ownerNamePairsUnique
      rw [List.pairwise_append]
      refine ⟨huniq, by simp, ?_⟩
      intro a ha b hb
      have hbmem : b = { createdRec adminId projectName appName appEmail newId tempKey cfg with
          projectKey := finalKey } := by
        simpa using hb
      subst hbmem
      intro hcon
      have hco : a.owner = adminId := hcon.1
      have hcn : a.projectName = projectName := hcon.2
      exact hnodup a ha ⟨hcn, hco⟩

def alwaysTrue : String → Bool := fun _ => true

def alwaysTrueCfg : ProjectConfig → Bool := fun _ => true

def adminTwo : String := "a2"

def projOther : ProjectRec := { projOne with id := "p9", owner := adminTwo }

def storeOther : Store :=
  { admins := [], projects := [projOther], users := [], sessions := [], logs := [] }

def newIdW : String := "pnew"

def tempKeyW : String := "tmpk"

def finalKeyW : String := "k9"

def cfgW : ProjectConfig := projOne.config

def alphaName : String := "alpha"

def appNameW : String := "app"

def appEmailW : String := "app@x.io"

/-- Witness for C7: the same `(owner, name)` pair collides on `storeOne`
(`projOne` is owned by `adminOne` and named `alpha`), while the same name
under the different owner `adminTwo` (store `storeOther`) succeeds. -/
theorem createProject_owner_name_unique_witness :
    createProject alwaysTrue alwaysTrue alwaysTrue alwaysTrueCfg adminOne alphaName
        appNameW appEmailW (some cfgW) newIdW tempKeyW finalKeyW storeOne
      = Except.error ErrKind.alreadyExists
    ∧ ∃ created : ProjectRec,
        createProject alwaysTrue alwaysTrue alwaysTrue alwaysTrueCfg adminOne alphaName
            appNameW appEmailW (some cfgW) newIdW tempKeyW finalKeyW storeOther
          = Except.ok ({ storeOther with projects := storeOther.projects ++ [created] }, created)
        ∧ created.owner = adminOne ∧ created.projectName = alphaName
        ∧ created.projectKey = finalKeyW
        ∧ ownerNamePairsUnique (storeOther.projects ++ [created]) :=
  createProject_owner_name_unique alwaysTrue alwaysTrue alwaysTrue alwaysTrueCfg
    adminOne alphaName appNameW appEmailW newIdW tempKeyW finalKeyW cfgW
    storeOne storeOther projOther
    (by decide) (by decide) (by decide) rfl rfl rfl rfl
    (by decide) (by decide) (by decide)
    (by unfold ownerNamePairsUnique storeOther
        exact List.pairwise_singleton _ _)
    (by decide) (by decide) (by decide)

/-! ## Security-log query controllers (security-log.controller.ts, claim C8)

The controllers are in the source; the external validation helper
`validateLogInput` (schema/validation.ts) and the `securityLog` query
engine (features/security-log.ts) are not, and are modelled from the
spec (sections 4.4 and 6). The source facts that decide the claim are in
the controllers themselves: an ABSENT eventCode is rejected with a
`NOT_FOUND` ApiError before any validation runs (lines 87-93 and
148-154), while a failing `validateLogInput` yields `VALIDATION_ERROR`. -/

/-- Modelled from the spec: the recognized event-code enumeration
(`EventCode`, declared outside the source files). -/
def recognizedEventCodes : List String :=
  ["userCreated", "userLogin", "userLogout", "userDeleted",
   "userSessionLimitExceeded", "passwordResetCompleted"]

/-- Modelled from the spec: optional inclusive date bounds are invalid
when `endDate < startDate`. -/
def datesOk (startDate endDate : Option Nat) : Bool :=
  match startDate, endDate with
  | some sd, some ed => !(ed < sd)
  | _, _ => true

/-- Modelled from the spec: `page`/`pageSize` must be positive when
provided. -/
def pageOk : Option Int → Bool
  | none => true
  | some n => 0 < n

/-- Modelled from the spec: the `validateLogInput` call of a user-scoped
query (the call site passes the `userId` field): an absent userId fails
validation, as do bad dates or non-positive pagination values. -/
def validateLogInputUser (userId : Option String) (page itemLimit : Option Int)
    (startDate endDate : Option Nat) : Bool :=
  userId.isSome && pageOk page && pageOk itemLimit && datesOk startDate endDate

/-- Modelled from the spec: the `validateLogInput` call of an event-scoped
query (the call site passes the `eventCode` field): an unrecognized
eventCode fails validation, as do bad dates or non-positive pagination
values. -/
def validateLogInputEvent (eventCode : String) (page itemLimit : Option Int)
    (startDate endDate : Option Nat) : Bool :=
  recognizedEventCodes.contains eventCode && pageOk page && pageOk itemLimit
    && datesOk startDate endDate

/-- The row filter of a log query: project scope, optional user scope,
optional event scope, optional inclusive date bounds. -/
def logMatches (projectId : String) (userId : Option String)
    (eventCode : Option String) (startDate endDate : Option Nat)
    (lg : LogRec) : Bool :=
  (lg.projectId == projectId)
  && (match userId with | none => true | some uid => lg.userId == some uid)
  && (match eventCode with | none => true | some ec => lg.eventCode == ec)
  && (match startDate with | none => true | some sd => !(lg.timestamp < sd))
  && (match endDate with | none => true | some ed => !(ed < lg.timestamp))

def insertByTimeDesc (x : LogRec) : List LogRec → List LogRec
  | [] => [x]
  | y :: ys => if y.timestamp < x.timestamp then x :: y :: ys else y :: insertByTimeDesc x ys

/-- Insertion sort by timestamp, newest first. -/
def sortByTimeDesc (l : List LogRec) : List LogRec :=
  l.foldr insertByTimeDesc []

/-- 1-indexed pagination. -/
def paginate (page itemLimit : Nat) (l : List LogRec) : List LogRec :=
  (l.drop ((page - 1) * itemLimit)).take itemLimit

/-- Default page and item count when the request omits them (the engine's
defaults; only the already-validated values reach this conversion). -/
def toCount (dflt : Nat) : Option Int → Nat
  | none => dflt
  | some n => n.toNat

/-- Modelled from the spec: the `securityLog` query engine — filter by
project/user/event/date range, order by timestamp descending, paginate. -/
def queryLogs (projectId : String) (userId : Option String)
    (eventCode : Option String) (startDate endDate : Option Nat)
    (page itemLimit : Option Int) (s : Store) : List LogRec :=
  paginate (toCount 1 page) (toCount 10 itemLimit)
    (sortByTimeDesc (s.logs.filter (logMatches projectId userId eventCode startDate endDate)))

/-- `getLogsByUserId` controller: the user id comes from the user-auth
middleware or, for an admin caller, from the request body; validation
failure yields `VALIDATION_ERROR`. -/
def getLogsByUserId (projectId : String) (authUserId bodyUserId : Option String)
    (page itemLimit : Option Int) (startDate endDate : Option Nat)
    (s : Store) : Except ErrKind (List LogRec) :=
  let userId := match authUserId with
    | some u => some u
    | none => bodyUserId
  if validateLogInputUser userId page itemLimit startDate endDate then
    Except.ok (queryLogs projectId userId none startDate endDate page itemLimit s)
  else Except.error ErrKind.validationError

/-- `getLogsByEventCode` controller (admin): an ABSENT eventCode is
rejected with `NOT_FOUND` (source lines 87-93) before validation; a
present but invalid input set yields `VALIDATION_ERROR`. -/
def getLogsByEventCode (projectId : String) (eventCode : Option String)
    (page itemLimit : Option Int) (startDate endDate : Option Nat)
    (s : Store) : Except ErrKind (List LogRec) :=
  match eventCode with
  | none => Except.error ErrKind.notFound
  | some ec =>
    if validateLogInputEvent ec page itemLimit startDate endDate then
      Except.ok (queryLogs projectId none (some ec) startDate endDate page itemLimit s)
    else Except.error ErrKind.validationError

/-- `getUserLogsByEventCode` controller (user): same absent-eventCode
`NOT_FOUND` rejection; validates both the user id and the event code. -/
def getUserLogsByEventCode (projectId : String) (authUserId : Option String)
    (eventCode : Option String) (page itemLimit : Option Int)
    (startDate endDate : Option Nat) (s : Store) : Except ErrKind (List LogRec) :=
  match eventCode with
  | none => Except.error ErrKind.notFound
  | some ec =>
    if validateLogInputUser authUserId page itemLimit startDate endDate
        && validateLogInputEvent ec page itemLimit startDate endDate then
      Except.ok (queryLogs projectId authUserId (some ec) startDate endDate page itemLimit s)
    else Except.error ErrKind.validationError

/-- Claim C8 counterexample: an ABSENT eventCode makes `getLogsByEventCode`
fail with the `NOT_FOUND` error kind, not with `VALIDATION_ERROR` as the
claim states (and the same holds for `getUserLogsByEventCode`). -/
theorem logQuery_absent_eventCode_counterexample :
    getLogsByEventCode pOne none (some 1) (some 10) none none storeOne
      = Except.error ErrKind.notFound
    ∧ ¬ getLogsByEventCode pOne none (some 1) (some 10) none none storeOne
        = Except.error ErrKind.validationError
    ∧ getUserLogsByEventCode pOne (some userOne.id) none (some 1) (some 10) none none storeOne
      = Except.error ErrKind.notFound := by
  refine ⟨rfl, ?_, rfl⟩
  intro h
  simp [getLogsByEventCode] at h

/-- Claim C8 (amended): across the three log-query controllers, an
unrecognized eventCode yields `VALIDATION_ERROR`, an ABSENT eventCode
yields `NOT_FOUND`, an absent userId in a user-scoped query yields
`VALIDATION_ERROR`, and a query matching no rows succeeds with an empty
page. -/
theorem logQuery_shared_contract (projectId badEc goodEc uid : String)
    (page itemLimit : Option Int) (startDate endDate : Option Nat) (s : Store)
    (hpage : pageOk page = true) (hitem : pageOk itemLimit = true)
    (hdates : datesOk startDate endDate = true)
    (hbad : recognizedEventCodes.contains badEc = false)
    (hgood : recognizedEventCodes.contains goodEc = true)
    (hnoneUser : s.logs.filter (logMatches projectId (some uid) none startDate endDate) = [])
    (hnoneEvent : s.logs.filter (logMatches projectId none (some goodEc) startDate endDate) = []) :
    getLogsByEventCode projectId none page itemLimit startDate endDate s
      = Except.error ErrKind.notFound
    ∧ getUserLogsByEventCode projectId (some uid) none page itemLimit startDate endDate s
      = Except.error ErrKind.notFound
    ∧ getLogsByEventCode projectId (some badEc) page itemLimit startDate endDate s
      = Except.error ErrKind.validationError
    ∧ getUserLogsByEventCode projectId (some uid) (some badEc) page itemLimit startDate endDate s
      = Except.error ErrKind.validationError
    ∧ getLogsByUserId projectId none none page itemLimit startDate endDate s
      = Except.error ErrKind.validationError
    ∧ getLogsByUserId projectId (some uid) none page itemLimit startDate endDate s
      = Except.ok []
    ∧ getLogsByEventCode projectId (some goodEc) page itemLimit startDate endDate s
      = Except.ok [] := by
  have hbadMem : badEc ∉ recognizedEventCodes := by
    simpa using hbad
  have hgoodMem : goodEc ∈ recognizedEventCodes := by
    simpa using hgood
  have hvalBad : validateLogInputEvent badEc page itemLimit startDate endDate = false := by
    simp [validateLogInputEvent, hbadMem]
  have hvalGood : validateLogInputEvent goodEc page itemLimit startDate endDate = true := by
    simp [validateLogInputEvent, hgoodMem, hpage, hitem, hdates]
  have hvalNoUid : validateLogInputUser none page itemLimit startDate endDate = false := by
    simp [validateLogInputUser]
  have hvalUid : validateLogInputUser (some uid) page itemLimit startDate endDate = true := by
    simp [validateLogInputUser, hpage, hitem, hdates]
  have hqUser : queryLogs projectId (some uid) none startDate endDate page itemLimit s = [] := by
    simp [queryLogs, hnoneUser, sortByTimeDesc, paginate]
  have hqEvent : queryLogs projectId none (some goodEc) startDate endDate page itemLimit s = [] := by
    simp [queryLogs, hnoneEvent, sortByTimeDesc, paginate]
  refine ⟨rfl, rfl, ?_, ?_, ?_, ?_, ?_⟩
  · simp [getLogsByEventCode, hvalBad]
  · simp [getUserLogsByEventCode, hvalBad]
  · simp [getLogsByUserId, hvalNoUid]
  · simp [getLogsByUserId, hvalUid, hqUser]
  · simp [getLogsByEventCode, hvalGood, hqEvent]

def badEcW : String := "bogusEvent"

def goodEcW : String := "userLogin"

/-- Witness for the amended claim C8 at concrete inputs (an empty log
collection, page 1, limit 10). -/
theorem logQuery_shared_contract_witness :
    getLogsByEventCode pTwo none (some 1) (some 10) none none storeOne
      = Except.error ErrKind.notFound
    ∧ getUserLogsByEventCode pTwo (some uTwoId) none (some 1) (some 10) none none storeOne
      = Except.error ErrKind.notFound
    ∧ getLogsByEventCode pTwo (some badEcW) (some 1) (some 10) none none storeOne
      = Except.error ErrKind.validationError
    ∧ getUserLogsByEventCode pTwo (some uTwoId) (some badEcW) (some 1) (some 10) none none storeOne
      = Except.error ErrKind.validationError
    ∧ getLogsByUserId pTwo none none (some 1) (some 10) none none storeOne
      = Except.error ErrKind.validationError
    ∧ getLogsByUserId pTwo (some uTwoId) none (some 1) (some 10) none none storeOne
      = Except.ok []
    ∧ getLogsByEventCode pTwo (some goodEcW) (some 1) (some 10) none none storeOne
      = Except.ok [] :=
  logQuery_shared_contract pTwo badEcW goodEcW uTwoId (some 1) (some 10) none none storeOne
    (by decide) (by decide) (by decide) (by decide) (by decide) (by decide) (by decide)

/-! ## Config resets (part_000, `resetEmailTemplateToDefault` and
`resetSecuritySettingToDefault`, claims C9 and C10)

Both controllers look the project up with `Project.findById(projectId)`
and have NO NotFound branch: they dereference the result through the
non-null assertion `projectFromDB!`. The absent-record case is the
runtime `TypeError` of that dereference, modelled as `ErrKind.derefNull`. -/

/-- Modelled from the spec: the fixed template-name enumeration
(`EmailTemplateName`, declared outside the source files). -/
def validTemplateNames : List String :=
  ["userVerification", "resetPassword", "userLimitExceeded",
   "userSessionLimitExceeded", "welcome"]

/-- The object-destructuring removal of one template key: the spread copy
of `config.emailTemplates` minus the `templateName` property, written
back to the document. Every other field of the document is untouched. -/
def removeTemplateKey (templateName : String) (q : ProjectRec) : ProjectRec :=
  { q with config := { q.config with
      emailTemplates := q.config.emailTemplates.filter (fun kv => !(kv.1 == templateName)) } }

/-- `resetEmailTemplateToDefault` controller: validates the template name
against the enumeration (`INVALID_FORMAT` otherwise), then removes that
one key from the looked-up project's override mapping and saves it; an
absent project is dereferenced through `projectFromDB!`. -/
def resetEmailTemplateToDefault (templateName projectId : String) (s : Store) :
    Except ErrKind Store :=
  if !(validTemplateNames.contains templateName) then Except.error ErrKind.invalidFormat
  else
    match s.projects.find? (fun q => q.id == projectId) with
    | none => Except.error ErrKind.derefNull
    | some _ =>
      Except.ok { s with projects := s.projects.map (fun q =>
        if q.id == projectId then removeTemplateKey templateName q else q) }

/-- The default security settings written by the reset:
`{userLimit: 1000, userSessionLimit: 5}`. -/
def defaultSecurity : SecurityConfig := { userLimit := 1000, userSessionLimit := 5 }

/-- The security-reset document update. -/
def resetSecurityOfProject (q : ProjectRec) : ProjectRec :=
  { q with config := { q.config with security := defaultSecurity } }

/-- `resetSecuritySettingToDefault` controller: no validation, no NotFound
branch — the looked-up project is dereferenced through `projectFromDB!`
and its security section overwritten with the defaults. -/
def resetSecuritySettingToDefault (projectId : String) (s : Store) :
    Except ErrKind Store :=
  match s.projects.find? (fun q => q.id == projectId) with
  | none => Except.error ErrKind.derefNull
  | some _ =>
    Except.ok { s with projects := s.projects.map (fun q =>
      if q.id == projectId then resetSecurityOfProject q else q) }

/-- Looking up a key other than the removed one is unaffected by the
removal. -/
theorem find_other_key_filter (k t : String) (l : List (String × String))
    (hk : ¬ k = t) :
    (l.filter (fun kv => !(kv.1 == t))).find? (fun kv => kv.1 == k)
      = l.find? (fun kv => kv.1 == k) := by
  induction l with
  | nil => rfl
  | cons x xs ih =>
    by_cases hx : x.1 = t
    · have h1 : (!(x.1 == t)) = false := by simp [hx]
      have hxk : ¬ x.1 = k := by
        intro hh
        apply hk
        rw [← hh]
        exact hx
      have h2 : (x.1 == k) = false := by simpa using hxk
      simp [List.filter_cons, List.find?_cons, h1, h2, ih]
    · have h1 : (!(x.1 == t)) = true := by simpa using hx
      by_cases hxk : x.1 = k
      · have h2 : (x.1 == k) = true := by simpa using hxk
        simp [List.filter_cons, List.find?_cons, h1, h2]
      · have h2 : (x.1 == k) = false := by simpa using hxk
        simp [List.filter_cons, List.find?_cons, h1, h2, ih]

/-- Claim C9: `resetEmailTemplateToDefault` removes exactly the
`templateName` key from the project's override mapping — the removed key
is gone, every other override key resolves as before, the other config
sections and document fields are unchanged, projects with a different id
are untouched, and the other four collections are untouched. -/
theorem resetEmailTemplate_frame (templateName projectId : String)
    (s : Store) (pr : ProjectRec)
    (hvalid : validTemplateNames.contains templateName = true)
    (hfind : s.projects.find? (fun q => q.id == projectId) = some pr) :
    resetEmailTemplateToDefault templateName projectId s
      = Except.ok { s with projects := s.projects.map (fun q =>
          if q.id == projectId then removeTemplateKey templateName q else q) }
    ∧ (∀ q : ProjectRec,
        (removeTemplateKey templateName q).config.emailTemplates.find?
            (fun kv => kv.1 == templateName) = none
        ∧ (∀ k : String, ¬ k = templateName →
            (removeTemplateKey templateName q).config.emailTemplates.find?
                (fun kv => kv.1 == k)
              = q.config.emailTemplates.find? (fun kv => kv.1 == k))
        ∧ (removeTemplateKey templateName q).config.security = q.config.security
        ∧ (removeTemplateKey templateName q).config.loginMethods = q.config.loginMethods
        ∧ (removeTemplateKey templateName q).id = q.id
        ∧ (removeTemplateKey templateName q).projectName = q.projectName
        ∧ (removeTemplateKey templateName q).owner = q.owner
        ∧ (removeTemplateKey templateName q).appName = q.appName
        ∧ (removeTemplateKey templateName q).appEmail = q.appEmail
        ∧ (removeTemplateKey templateName q).projectKey = q.projectKey)
    ∧ (∀ q : ProjectRec, ¬ q.id = projectId →
        (if q.id == projectId then removeTemplateKey templateName q else q) = q)
    ∧ ({ s with projects := s.projects.map (fun q =>
          if q.id == projectId then removeTemplateKey templateName q else q) } : Store).admins
        = s.admins
    ∧ ({ s with projects := s.projects.map (fun q =>
          if q.id == projectId then removeTemplateKey templateName q else q) } : Store).users
        = s.users
    ∧ ({ s with projects := s.projects.map (fun q =>
          if q.id == projectId then removeTemplateKey templateName q else q) } : Store).sessions
        = s.sessions
    ∧ ({ s with projects := s.projects.map (fun q =>
          if q.id == projectId then removeTemplateKey templateName q else q) } : Store).logs
        = s.logs := by
  have hvMem : templateName ∈ validTemplateNames := by
    simpa using hvalid
  refine ⟨?_, ?_, ?_, rfl, rfl, rfl, rfl⟩
  · simp [resetEmailTemplateToDefault, hvMem, hfind]
  · intro q
    refine ⟨?_, ?_, rfl, rfl, rfl, rfl, rfl, rfl, rfl, rfl⟩
    · exact find_match_in_filter_not (fun kv : String × String => kv.1 == templateName) _
    · intro k hk
      exact find_other_key_filter k templateName q.config.emailTemplates hk
  · intro q hq
    simp [hq]

def pThree : String := "p3"

def welcomeName : String := "welcome"

def resetPwName : String := "resetPassword"

def welContent : String := "welcome-override"

def rpContent : String := "reset-override"

def projTplConfig : ProjectConfig :=
  { loginMethods := projOne.config.loginMethods,
    security := projOne.config.security,
    emailTemplates := [(welcomeName, welContent), (resetPwName, rpContent)] }

def projTpl : ProjectRec :=
  { projOne with id := pThree, config := projTplConfig }

def storeTpl : Store :=
  { admins := [], projects := [projTpl], users := [], sessions := [], logs := [] }

/-- Witness for C9 at a concrete project holding two overrides, removing
the `welcome` override. -/
theorem resetEmailTemplate_frame_witness :
    resetEmailTemplateToDefault welcomeName pThree storeTpl
      = Except.ok { storeTpl with projects := storeTpl.projects.map (fun q =>
          if q.id == pThree then removeTemplateKey welcomeName q else q) }
    ∧ (∀ q : ProjectRec,
        (removeTemplateKey welcomeName q).config.emailTemplates.find?
            (fun kv => kv.1 == welcomeName) = none
        ∧ (∀ k : String, ¬ k = welcomeName →
            (removeTemplateKey welcomeName q).config.emailTemplates.find?
                (fun kv => kv.1 == k)
              = q.config.emailTemplates.find? (fun kv => kv.1 == k))
        ∧ (removeTemplateKey welcomeName q).config.security = q.config.security
        ∧ (removeTemplateKey welcomeName q).config.loginMethods = q.config.loginMethods
        ∧ (removeTemplateKey welcomeName q).id = q.id
        ∧ (removeTemplateKey welcomeName q).projectName = q.projectName
        ∧ (removeTemplateKey welcomeName q).owner = q.owner
        ∧ (removeTemplateKey welcomeName q).appName = q.appName
        ∧ (removeTemplateKey welcomeName q).appEmail = q.appEmail
        ∧ (removeTemplateKey welcomeName q).projectKey = q.projectKey)
    ∧ (∀ q : ProjectRec, ¬ q.id = pThree →
        (if q.id == pThree then removeTemplateKey welcomeName q else q) = q)
    ∧ ({ storeTpl with projects := storeTpl.projects.map (fun q =>
          if q.id == pThree then removeTemplateKey welcomeName q else q) } : Store).admins
        = storeTpl.admins
    ∧ ({ storeTpl with projects := storeTpl.projects.map (fun q =>
          if q.id == pThree then removeTemplateKey welcomeName q else q) } : Store).users
        = storeTpl.users
    ∧ ({ storeTpl with projects := storeTpl.projects.map (fun q =>
          if q.id == pThree then removeTemplateKey welcomeName q else q) } : Store).sessions
        = storeTpl.sessions
    ∧ ({ storeTpl with projects := storeTpl.projects.map (fun q =>
          if q.id == pThree then removeTemplateKey welcomeName q else q) } : Store).logs
        = storeTpl.logs :=
  resetEmailTemplate_frame welcomeName pThree storeTpl projTpl (by decide) (by decide)

/-- The store with no project documents at all (every lookup misses). -/
def storeNoProjects : Store :=
  { admins := [], projects := [], users := [], sessions := [], logs := [] }

/-- Claim C10: with the project present both reset operations succeed (the
security reset writes exactly `{userLimit: 1000, userSessionLimit: 5}`)
and no error branch is taken; with the project absent both fail with the
dereference error of the non-null assertion, which is NOT the structured
`NotFound` error kind. -/
theorem reset_ops_deref_behavior (templateName projectId : String)
    (s t : Store) (pr : ProjectRec)
    (hvalid : validTemplateNames.contains templateName = true)
    (hpresent : s.projects.find? (fun q => q.id == projectId) = some pr)
    (habsent : t.projects.find? (fun q => q.id == projectId) = none) :
    resetSecuritySettingToDefault projectId s
      = Except.ok { s with projects := s.projects.map (fun q =>
          if q.id == projectId then resetSecurityOfProject q else q) }
    ∧ (∀ q : ProjectRec, (resetSecurityOfProject q).config.security = defaultSecurity)
    ∧ defaultSecurity.userLimit = 1000 ∧ defaultSecurity.userSessionLimit = 5
    ∧ (∃ s3 : Store, resetEmailTemplateToDefault templateName projectId s = Except.ok s3)
    ∧ resetSecuritySettingToDefault projectId t = Except.error ErrKind.derefNull
    ∧ resetEmailTemplateToDefault templateName projectId t = Except.error ErrKind.derefNull
    ∧ ¬ ErrKind.derefNull = ErrKind.notFound := by
  have hvMem : templateName ∈ validTemplateNames := by
    simpa using hvalid
  refine ⟨?_, fun q => rfl, rfl, rfl, ?_, ?_, ?_, by decide⟩
  · simp [resetSecuritySettingToDefault, hpresent]
  · refine ⟨{ s with projects := s.projects.map (fun q =>
        if q.id == projectId then removeTemplateKey templateName q else q) }, ?_⟩
    simp [resetEmailTemplateToDefault, hvMem, hpresent]
  · simp [resetSecuritySettingToDefault, habsent]
  · simp [resetEmailTemplateToDefault, hvMem, habsent]

/-- Witness for C10: project `p3` present in `storeTpl`, absent from
`storeNoProjects`. -/
theorem reset_ops_deref_behavior_witness :
    resetSecuritySettingToDefault pThree storeTpl
      = Except.ok { storeTpl with projects := storeTpl.projects.map (fun q =>
          if q.id == pThree then resetSecurityOfProject q else q) }
    ∧ (∀ q : ProjectRec, (resetSecurityOfProject q).config.security = defaultSecurity)
    ∧ defaultSecurity.userLimit = 1000 ∧ defaultSecurity.userSessionLimit = 5
    ∧ (∃ s3 : Store, resetEmailTemplateToDefault resetPwName pThree storeTpl = Except.ok s3)
    ∧ resetSecuritySettingToDefault pThree storeNoProjects = Except.error ErrKind.derefNull
    ∧ resetEmailTemplateToDefault resetPwName pThree storeNoProjects = Except.error ErrKind.derefNull
    ∧ ¬ ErrKind.derefNull = ErrKind.notFound :=
  reset_ops_deref_behavior resetPwName pThree storeTpl storeNoProjects projTpl
    (by decide) (by decide) (by decide)

end AuthWave
